import Mathlib

/-! Slug-keyed identity records: a shallow embedding of `identity.go`.

The embedding covers the TTL normaliser `parseTTL`, the
validator `sanitizeInputParams`, the two store functions `createRedisEntry`
and `getRedisEntryBySlug`, and the body of the two `/save/...` handlers.

The Redis server, the `go-redis` client, `strconv.Atoi` and `ulid.Make` are
libraries outside `identity.go`.  They are modelled here by their documented
behaviour:

* a Redis hash is a finite map from field names to strings, a key either has
  a hash (with an optional remaining time to live in seconds) or is absent;
* every client call either reaches the server and is executed, or fails with
  a transport error and leaves the store untouched; which of the two happens
  is an explicit argument of the call (`none` for "executed");
* the identifier minted by `ulid.Make().String()` is an explicit argument;
* every call issued to the store is appended to a trace, so that "no call is
  issued" can be stated.

Logging has no effect on any value computed and is left out.
-/

namespace Identity

/-! ## Go values -/

/-- A Go `error` value.  `errorf` is an error built by `fmt.Errorf` in
`identity.go`; `redis` is an error reported by the store client. -/
inductive GoError where
  | errorf (msg : String)
  | redis (msg : String)
  deriving DecidableEq, Repr

/-- The constant `DEFAULT_TTL int = 24 * 60 * 60`: 24 hours in seconds. -/
def DEFAULT_TTL : Int := 24 * 60 * 60

/-- The constant `TTL_MAX int = 7 * 24 * 60 * 60`: 7 days in seconds. -/
def TTL_MAX : Int := 7 * 24 * 60 * 60

/-- The struct `RedisInput`. -/
structure RedisInput where
  User : String
  UserType : String
  Action : String
  Ttl : Int
  deriving DecidableEq, Repr

/-- The struct `RedisOutput`. -/
structure RedisOutput where
  User : String
  UserType : String
  Action : String
  deriving DecidableEq, Repr

/-! ## `strconv.Atoi` -/

/-- The loop of `strconv.Atoi` over the digits: `n = n*10 + int(ch - '0')`,
failing on the first byte that is not a decimal digit. -/
def parseDigits : List Char → Nat → Option Nat
  | [], n => some n
  | c :: cs, n =>
    if c.isDigit then parseDigits cs (n * 10 + (c.toNat - '0'.toNat)) else none

/-- The unsigned part of `strconv.Atoi`: at least one byte, all of them
decimal digits. -/
def parseUnsigned (cs : List Char) : Option Nat :=
  if cs = [] then none else parseDigits cs 0

/-- The function `strconv.Atoi` on a 64-bit platform: an optional sign followed by one
or more decimal digits, the value within the range of `int`; `none` stands
for a non-nil error (malformed or out of range). -/
def Atoi (s : String) : Option Int :=
  match s.data with
  | '-' :: cs =>
    match parseUnsigned cs with
    | some n => if n ≤ 2 ^ 63 then some (-(n : Int)) else none
    | none => none
  | '+' :: cs =>
    match parseUnsigned cs with
    | some n => if n < 2 ^ 63 then some (n : Int) else none
    | none => none
  | cs =>
    match parseUnsigned cs with
    | some n => if n < 2 ^ 63 then some (n : Int) else none
    | none => none

/-- The function `parseTTL(userTtl string) int`. -/
def parseTTL (userTtl : String) : Int :=
  let ttl := DEFAULT_TTL
  match Atoi userTtl with
  | some intTtl => if intTtl > 0 ∧ intTtl ≤ TTL_MAX then intTtl else ttl
  | none => ttl

/-! ## Requests and validation -/

/-- The part of `*http.Request` that `identity.go` reads: the value of each
path wildcard, the empty string for a wildcard the route does not have. -/
structure Request where
  PathValue : String → String

/-- A request of the route `GET /save/{userType}/{userId}/{action}/{ttl}`. -/
def saveTtlRequest (userType userId action ttl : String) : Request where
  PathValue := fun name =>
    if name = "userType" then userType
    else if name = "userId" then userId
    else if name = "action" then action
    else if name = "ttl" then ttl
    else ""

/-- A request of the route `GET /save/{userType}/{userId}/{action}`. -/
def saveRequest (userType userId action : String) : Request where
  PathValue := fun name =>
    if name = "userType" then userType
    else if name = "userId" then userId
    else if name = "action" then action
    else ""

/-- The function
`sanitizeInputParams(request *http.Request) (string, string, string, int, error)`. -/
def sanitizeInputParams (request : Request) :
    String × String × String × Int × Option GoError :=
  let userType := request.PathValue "userType"
  if userType ≠ "prospect" ∧ userType ≠ "resident" then
    ("", "", "", 0, some (GoError.errorf "Invalid user type."))
  else
    let action := request.PathValue "action"
    if action ≠ "smsConsent" ∧ action ≠ "appointmentChange" then
      ("", "", "", 0, some (GoError.errorf "Invalid action type."))
    else
      let userId := request.PathValue "userId"
      let ttl := parseTTL (request.PathValue "ttl")
      (userType, action, userId, ttl, none)

/-! ## The store -/

/-- A Redis hash, and the Go `map[string]string` that `HGetAll` returns. -/
abbrev Hash := String → Option String

/-- The hash without fields: what `HGetAll` returns for an absent key, and
the nil map. -/
def emptyHash : Hash := fun _ => none

/-- Go's `value[field]` on a `map[string]string`: the zero value `""` for a
field that is not in the map. -/
def goIndex (value : Hash) (field : String) : String := (value field).getD ""

/-- One field of a hash set to a value. -/
def hashSet (h : Hash) (field value : String) : Hash :=
  fun f => if f = field then some value else h f

/-- The field/value pairs of one `HSET` applied in turn. -/
def hashSetAll (h : Hash) : List (String × String) → Hash
  | [] => h
  | (field, value) :: rest => hashSetAll (hashSet h field value) rest

/-- What the store holds under one key: the hash and the remaining time to
live in seconds (`none`: the key does not expire). -/
structure Entry where
  hash : Hash
  ttl : Option Nat

/-- The keyspace of the store. -/
abbrev Store := String → Option Entry

/-- The store without keys. -/
def emptyStore : Store := fun _ => none

/-- The hash under a key, empty for an absent key. -/
def hashOf (store : Store) (key : String) : Hash :=
  match store key with
  | some entry => entry.hash
  | none => emptyHash

/-- The passing of `seconds` seconds: a key whose time to live has run out
is removed by the store. -/
def elapse (seconds : Nat) (store : Store) : Store :=
  fun key =>
    match store key with
    | none => none
    | some entry =>
      match entry.ttl with
      | none => some entry
      | some t => if t ≤ seconds then none else some { entry with ttl := some (t - seconds) }

/-- A command issued to the store. -/
inductive Cmd where
  | HSet (key : String) (values : List (String × String))
  | ExpireLT (key : String) (seconds : Int)
  | HGetAll (key : String)
  deriving DecidableEq, Repr

/-- The `*redis.Client`: the store behind it and the commands issued through
it so far, oldest first. -/
structure Client where
  store : Store
  calls : List Cmd

/-- Conversion to `int64` (two's complement wrap-around). -/
def wrapInt64 (x : Int) : Int := (x + 2 ^ 63) % 2 ^ 64 - 2 ^ 63

/-- The constant `time.Second`, in nanoseconds. -/
def Second : Int := 1000000000

/-- The function `formatSec` of `go-redis`: a duration in nanoseconds as whole seconds,
a positive duration below one second rounded up to 1. -/
def formatSec (dur : Int) : Int :=
  if dur > 0 ∧ dur < Second then 1 else Int.tdiv dur Second

/-- The command `HSET key field value ...` on the store: sets the given
fields of the hash under `key`, creating the key when it is absent; an
existing time to live is kept. -/
def storeHSet (store : Store) (key : String) (values : List (String × String)) : Store :=
  fun k =>
    if k = key then
      match store key with
      | some old => some { old with hash := hashSetAll old.hash values }
      | none => some { hash := hashSetAll emptyHash values, ttl := none }
    else store k

/-- The test of the `LT` flag of `EXPIRE`: the command is refused when the
key has a time to live that is not greater than `seconds` (a key without one
counts as having an infinite one). -/
def ltRefuses (ttl : Option Nat) (seconds : Int) : Bool :=
  match ttl with
  | some t => decide ((t : Int) ≤ seconds)
  | none => false

/-- The command `EXPIRE key seconds LT` on the store: nothing happens for an
absent key, or when the `LT` test refuses; otherwise a non-positive `seconds`
deletes the key and a positive one becomes its time to live. -/
def storeExpireLT (store : Store) (key : String) (seconds : Int) : Store :=
  fun k =>
    if k = key then
      match store key with
      | none => none
      | some entry =>
        if ltRefuses entry.ttl seconds then some entry
        else if seconds ≤ 0 then none
        else some { entry with ttl := some seconds.toNat }
    else store k

/-- The call `client.HSet(ctx, key, values).Err()`. -/
def Client.HSet (client : Client) (fault : Option GoError) (key : String)
    (values : List (String × String)) : Option GoError × Client :=
  let calls := client.calls ++ [Cmd.HSet key values]
  match fault with
  | some e => (some e, { client with calls := calls })
  | none => (none, { store := storeHSet client.store key values, calls := calls })

/-- The call `client.ExpireLT(ctx, key, expiration).Err()`; the duration is
sent as whole seconds. -/
def Client.ExpireLT (client : Client) (fault : Option GoError) (key : String)
    (expiration : Int) : Option GoError × Client :=
  let seconds := formatSec expiration
  let calls := client.calls ++ [Cmd.ExpireLT key seconds]
  match fault with
  | some e => (some e, { client with calls := calls })
  | none => (none, { store := storeExpireLT client.store key seconds, calls := calls })

/-- The call `client.HGetAll(ctx, key).Result()`: all fields of the hash under `key`,
the empty map for an absent key; on a transport error the map is nil. -/
def Client.HGetAll (client : Client) (fault : Option GoError) (key : String) :
    (Hash × Option GoError) × Client :=
  let calls := client.calls ++ [Cmd.HGetAll key]
  match fault with
  | some e => ((emptyHash, some e), { client with calls := calls })
  | none => ((hashOf client.store key, none), { client with calls := calls })

/-! ## The functions of `identity.go` -/

/-- The function
`getRedisEntryBySlug(slug string, client *redis.Client) (RedisOutput, error)`;
`fault` is the outcome of the one `HGetAll` call. -/
def getRedisEntryBySlug (slug : String) (client : Client) (fault : Option GoError) :
    (RedisOutput × Option GoError) × Client :=
  let ((value, err), client) := client.HGetAll fault slug
  let mappedValue : RedisOutput :=
    { User := goIndex value "user", UserType := goIndex value "userType",
      Action := goIndex value "action" }
  let err := if (goIndex value "user").length = 0 then some (GoError.errorf "Slug not found.") else err
  ((mappedValue, err), client)

/-- The function
`createRedisEntry(input RedisInput, client *redis.Client) (string, error)`;
`ulid` is the value of `ulid.Make().String()`, `hsetErr` and `expireErr` are
the outcomes of the `HSet` and the `ExpireLT` call. -/
def createRedisEntry (input : RedisInput) (client : Client) (ulid : String)
    (hsetErr expireErr : Option GoError) : (String × Option GoError) × Client :=
  let slug := ulid
  let timeDuration := wrapInt64 (wrapInt64 input.Ttl * Second)
  let (err, client) := client.HSet hsetErr slug
    [("user", input.User), ("userType", input.UserType), ("action", input.Action)]
  if err = none then
    let (err, client) := client.ExpireLT expireErr slug timeDuration
    ((slug, err), client)
  else
    ((slug, err), client)

/-- The handler of `GET /save/{userType}/{userId}/{action}/{ttl}`: the
response body and the client afterwards. -/
def saveTtlHandler (request : Request) (client : Client) (ulid : String)
    (hsetErr expireErr : Option GoError) : String × Client :=
  let response := "Error creating slug."
  let (pathUserType, pathAction, pathUserId, ttl, _err) := sanitizeInputParams request
  -- `if err != nil { log.Println(err) }`: the error is logged, nothing else
  let ((slug, err), client) := createRedisEntry
    { User := pathUserId, UserType := pathUserType, Action := pathAction, Ttl := ttl }
    client ulid hsetErr expireErr
  let response := if err = none then slug else response
  (response, client)

/-- The handler of `GET /save/{userType}/{userId}/{action}`: the response
body and the client afterwards. -/
def saveHandler (request : Request) (client : Client) (ulid : String)
    (hsetErr expireErr : Option GoError) : String × Client :=
  let response := "Error creating slug."
  let (pathUserType, pathAction, pathUserId, ttl, _err) := sanitizeInputParams request
  -- `if err != nil { log.Println(err) }`: the error is logged, nothing else
  let ((slug, err), client) := createRedisEntry
    { User := pathUserId, UserType := pathUserType, Action := pathAction, Ttl := ttl }
    client ulid hsetErr expireErr
  let response := if err = none then slug else response
  (response, client)

/-! ## Decimal numerals -/

theorem parseDigits_append (xs ys : List Char) (acc : Nat) :
    parseDigits (xs ++ ys) acc = (parseDigits xs acc).bind (parseDigits ys) := by
  induction xs generalizing acc with
  | nil => simp [parseDigits]
  | cons c cs ih =>
    by_cases hc : c.isDigit
    · simp [parseDigits, hc, ih]
    · simp [parseDigits, hc]

theorem digitChar_isDigit (d : Nat) (hd : d < 10) :
    (Nat.digitChar d).isDigit = true ∧ (Nat.digitChar d).toNat - '0'.toNat = d := by
  interval_cases d <;> decide

theorem toDigitsCore_append (fuel n : Nat) (ds : List Char) :
    Nat.toDigitsCore 10 fuel n ds = Nat.toDigitsCore 10 fuel n [] ++ ds := by
  induction fuel generalizing n ds with
  | zero => simp [Nat.toDigitsCore]
  | succ fuel ih =>
    simp only [Nat.toDigitsCore]
    split
    · simp
    · rw [ih (n / 10) (Nat.digitChar (n % 10) :: ds), ih (n / 10) [Nat.digitChar (n % 10)]]
      simp

theorem parseDigits_toDigitsCore (fuel n : Nat) (h : n < fuel) :
    parseDigits (Nat.toDigitsCore 10 fuel n []) 0 = some n := by
  induction fuel generalizing n with
  | zero => omega
  | succ fuel ih =>
    have hd := digitChar_isDigit (n % 10) (Nat.mod_lt _ (by decide))
    simp only [Nat.toDigitsCore]
    split
    · rename_i h0
      simp only [parseDigits, hd.1, hd.2, if_true]
      congr 1
      omega
    · rename_i h0
      rw [toDigitsCore_append, parseDigits_append, ih (n / 10) (by omega)]
      simp only [Option.bind, parseDigits, hd.1, hd.2, if_true]
      congr 1
      omega

theorem toDigits_ne_nil (n : Nat) : Nat.toDigits 10 n ≠ [] := by
  unfold Nat.toDigits
  simp only [Nat.toDigitsCore]
  split
  · simp
  · rw [toDigitsCore_append]
    simp

theorem parseUnsigned_toDigits (n : Nat) : parseUnsigned (Nat.toDigits 10 n) = some n := by
  unfold parseUnsigned
  rw [if_neg (toDigits_ne_nil n)]
  exact parseDigits_toDigitsCore (n + 1) n (by omega)

theorem parseUnsigned_head (c : Char) (cs : List Char) (n : Nat)
    (h : parseUnsigned (c :: cs) = some n) : c.isDigit = true := by
  unfold parseUnsigned at h
  simp only [reduceCtorEq, if_false, parseDigits] at h
  by_contra hc
  simp [hc] at h

theorem Atoi_unsigned (s : String) (n : Nat) (h : parseUnsigned s.data = some n) :
    Atoi s = if n < 2 ^ 63 then some (n : Int) else none := by
  unfold Atoi
  split
  · rename_i cs heq
    rw [heq] at h
    have := parseUnsigned_head _ _ _ h
    exact absurd this (by decide)
  · rename_i cs heq
    rw [heq] at h
    have := parseUnsigned_head _ _ _ h
    exact absurd this (by decide)
  · simp [h]

theorem Atoi_toString (n : Nat) :
    Atoi (toString n) = if n < 2 ^ 63 then some (n : Int) else none :=
  Atoi_unsigned _ n (parseUnsigned_toDigits n)

theorem Atoi_neg_toString (n : Nat) :
    Atoi ("-" ++ toString n) = if n ≤ 2 ^ 63 then some (-(n : Int)) else none := by
  have h : ("-" ++ toString n).data = '-' :: Nat.toDigits 10 n := rfl
  unfold Atoi
  rw [h]
  simp [parseUnsigned_toDigits]

/-! ## `parseTTL` -/

theorem parseTTL_eq (s : String) :
    parseTTL s =
      match Atoi s with
      | some n => if 0 < n ∧ n ≤ 604800 then n else 86400
      | none => 86400 := by
  unfold parseTTL
  cases Atoi s <;> simp [DEFAULT_TTL, TTL_MAX]

theorem parseTTL_range (s : String) : 0 < parseTTL s ∧ parseTTL s ≤ 604800 := by
  rw [parseTTL_eq]
  split
  · split
    · assumption
    · decide
  · decide

theorem parseTTL_toString (n : Nat) :
    parseTTL (toString n) = if 0 < n ∧ n ≤ 604800 then (n : Int) else 86400 := by
  rw [parseTTL_eq, Atoi_toString]
  by_cases h : n < 2 ^ 63
  · simp only [h, if_true]
    by_cases h2 : 0 < n ∧ n ≤ 604800
    · rw [if_pos h2, if_pos (by omega)]
    · rw [if_neg h2, if_neg (by omega)]
  · simp only [h, if_false]
    rw [if_neg (by omega)]

theorem parseTTL_neg_toString (n : Nat) : parseTTL ("-" ++ toString n) = 86400 := by
  rw [parseTTL_eq, Atoi_neg_toString]
  by_cases h : n ≤ 2 ^ 63
  · simp only [h, if_true]
    rw [if_neg (by omega)]
  · simp only [h, if_false]

/-- C2: `parseTTL` returns the parsed integer when `strconv.Atoi` accepts the
string and the integer lies in `(0, 604800]`, and `86400` in every other case;
the result always lies in `(0, TTL_MAX]`, where `TTL_MAX = 604800` and
`DEFAULT_TTL = 86400`.  On decimal numerals: the numeral of `n` gives `n` when
`0 < n ≤ 604800` and `86400` otherwise (however large `n` is), the numeral of
a negative number and the empty string give `86400`. -/
theorem parseTTL_normalises (s : String) (n : Nat) :
    (parseTTL s =
      match Atoi s with
      | some k => if 0 < k ∧ k ≤ 604800 then k else 86400
      | none => 86400) ∧
    (0 < parseTTL s ∧ parseTTL s ≤ TTL_MAX) ∧
    TTL_MAX = 604800 ∧ DEFAULT_TTL = 86400 ∧
    parseTTL (toString n) = (if 0 < n ∧ n ≤ 604800 then (n : Int) else 86400) ∧
    parseTTL ("-" ++ toString n) = 86400 ∧
    parseTTL "" = 86400 :=
  ⟨parseTTL_eq s, parseTTL_range s, by decide, by decide, parseTTL_toString n,
    parseTTL_neg_toString n, by decide⟩

/-! ## `sanitizeInputParams` -/

/-- C3: `sanitizeInputParams` reports the invalid-user-type error whenever the
user type is neither `prospect` nor `resident`, whatever the action; reports
the invalid-action error exactly when the user type is valid and the action
is neither `smsConsent` nor `appointmentChange`; and otherwise returns the
user type, the action and the user id unchanged (the user id unchecked)
together with `parseTTL` of the raw ttl and no error. -/
theorem sanitizeInputParams_spec (request : Request) :
    sanitizeInputParams request =
      (if request.PathValue "userType" ≠ "prospect" ∧ request.PathValue "userType" ≠ "resident" then
        ("", "", "", 0, some (GoError.errorf "Invalid user type."))
      else if request.PathValue "action" ≠ "smsConsent" ∧
          request.PathValue "action" ≠ "appointmentChange" then
        ("", "", "", 0, some (GoError.errorf "Invalid action type."))
      else
        (request.PathValue "userType", request.PathValue "action", request.PathValue "userId",
          parseTTL (request.PathValue "ttl"), none)) ∧
    ((sanitizeInputParams request).2.2.2.2 = some (GoError.errorf "Invalid user type.") ↔
      (request.PathValue "userType" ≠ "prospect" ∧ request.PathValue "userType" ≠ "resident")) ∧
    ((sanitizeInputParams request).2.2.2.2 = some (GoError.errorf "Invalid action type.") ↔
      ((request.PathValue "userType" = "prospect" ∨ request.PathValue "userType" = "resident") ∧
        request.PathValue "action" ≠ "smsConsent" ∧
        request.PathValue "action" ≠ "appointmentChange")) ∧
    ((sanitizeInputParams request).2.2.2.2 = none ↔
      ((request.PathValue "userType" = "prospect" ∨ request.PathValue "userType" = "resident") ∧
        (request.PathValue "action" = "smsConsent" ∨
          request.PathValue "action" = "appointmentChange"))) := by
  have hspec : sanitizeInputParams request =
      (if request.PathValue "userType" ≠ "prospect" ∧ request.PathValue "userType" ≠ "resident" then
        ("", "", "", 0, some (GoError.errorf "Invalid user type."))
      else if request.PathValue "action" ≠ "smsConsent" ∧
          request.PathValue "action" ≠ "appointmentChange" then
        ("", "", "", 0, some (GoError.errorf "Invalid action type."))
      else
        (request.PathValue "userType", request.PathValue "action", request.PathValue "userId",
          parseTTL (request.PathValue "ttl"), none)) := rfl
  refine ⟨hspec, ?_, ?_, ?_⟩ <;> rw [hspec] <;>
    by_cases h1 : request.PathValue "userType" = "prospect" <;>
    by_cases h2 : request.PathValue "userType" = "resident" <;>
    by_cases h3 : request.PathValue "action" = "smsConsent" <;>
    by_cases h4 : request.PathValue "action" = "appointmentChange" <;>
    simp [h1, h2, h3, h4]


/-! ## The store calls of `createRedisEntry` -/

theorem seconds_of_ttl (t : Int) (h0 : 0 < t) (h1 : t ≤ 604800) :
    formatSec (wrapInt64 (wrapInt64 t * Second)) = t := by
  have hw : wrapInt64 t = t := by unfold wrapInt64; omega
  have hw2 : wrapInt64 (t * Second) = t * 1000000000 := by unfold wrapInt64 Second; omega
  rw [hw, hw2]
  unfold formatSec Second
  rw [if_neg (by omega)]
  exact Int.mul_tdiv_cancel t (by decide)

theorem seconds_of_parseTTL (ttl : String) :
    formatSec (wrapInt64 (wrapInt64 (parseTTL ttl) * Second)) = parseTTL ttl :=
  seconds_of_ttl _ (parseTTL_range ttl).1 (parseTTL_range ttl).2

theorem createRedisEntry_slug (input : RedisInput) (client : Client) (ulid : String)
    (hsetErr expireErr : Option GoError) :
    (createRedisEntry input client ulid hsetErr expireErr).1.1 = ulid := by
  unfold createRedisEntry
  cases hsetErr <;> simp [Client.HSet]

theorem createRedisEntry_err (input : RedisInput) (client : Client) (ulid : String)
    (hsetErr expireErr : Option GoError) :
    (createRedisEntry input client ulid hsetErr expireErr).1.2 =
      match hsetErr with
      | some e => some e
      | none => expireErr := by
  unfold createRedisEntry
  cases hsetErr with
  | some e => simp [Client.HSet]
  | none => cases expireErr <;> simp [Client.HSet, Client.ExpireLT]

theorem createRedisEntry_store (input : RedisInput) (client : Client) (ulid : String)
    (hsetErr expireErr : Option GoError) :
    (createRedisEntry input client ulid hsetErr expireErr).2.store =
      match hsetErr, expireErr with
      | some _, _ => client.store
      | none, some _ => storeHSet client.store ulid
          [("user", input.User), ("userType", input.UserType), ("action", input.Action)]
      | none, none => storeExpireLT (storeHSet client.store ulid
          [("user", input.User), ("userType", input.UserType), ("action", input.Action)]) ulid
          (formatSec (wrapInt64 (wrapInt64 input.Ttl * Second))) := by
  unfold createRedisEntry
  cases hsetErr with
  | some e => simp [Client.HSet]
  | none => cases expireErr <;> simp [Client.HSet, Client.ExpireLT]

theorem createRedisEntry_calls (input : RedisInput) (client : Client) (ulid : String)
    (hsetErr expireErr : Option GoError) :
    (createRedisEntry input client ulid hsetErr expireErr).2.calls =
      match hsetErr with
      | some _ => client.calls ++ [Cmd.HSet ulid
          [("user", input.User), ("userType", input.UserType), ("action", input.Action)]]
      | none => client.calls ++ [Cmd.HSet ulid
          [("user", input.User), ("userType", input.UserType), ("action", input.Action)],
          Cmd.ExpireLT ulid (formatSec (wrapInt64 (wrapInt64 input.Ttl * Second)))] := by
  unfold createRedisEntry
  cases hsetErr with
  | some e => simp [Client.HSet]
  | none => cases expireErr <;> simp [Client.HSet, Client.ExpireLT]

theorem storeHSet_other (store : Store) (key : String) (values : List (String × String))
    (k : String) (h : k ≠ key) : storeHSet store key values k = store k := by
  simp [storeHSet, h]

theorem storeExpireLT_other (store : Store) (key : String) (seconds : Int)
    (k : String) (h : k ≠ key) : storeExpireLT store key seconds k = store k := by
  simp [storeExpireLT, h]

theorem hashOf_storeHSet (store : Store) (key : String) (values : List (String × String)) :
    hashOf (storeHSet store key values) key = hashSetAll (hashOf store key) values := by
  unfold hashOf storeHSet
  cases store key <;> simp

theorem hashOf_storeExpireLT (store : Store) (key : String) (seconds : Int) (h : 0 < seconds) :
    hashOf (storeExpireLT store key seconds) key = hashOf store key := by
  have hs : ¬ seconds ≤ 0 := by omega
  unfold hashOf storeExpireLT
  cases store key with
  | none => simp
  | some entry => by_cases hr : ltRefuses entry.ttl seconds = true <;> simp [hr, hs]

theorem storeExpireLT_present (store : Store) (key : String) (seconds : Int) (h : 0 < seconds)
    (hp : store key ≠ none) : storeExpireLT store key seconds key ≠ none := by
  have hs : ¬ seconds ≤ 0 := by omega
  unfold storeExpireLT
  cases hk : store key with
  | none => exact absurd hk hp
  | some entry => by_cases hr : ltRefuses entry.ttl seconds = true <;> simp [hr, hs]

theorem storeHSet_present (store : Store) (key : String) (values : List (String × String)) :
    storeHSet store key values key ≠ none := by
  unfold storeHSet
  cases store key <;> simp

theorem goIndex_record (h : Hash) (user userType action : String) :
    goIndex (hashSetAll h [("user", user), ("userType", userType), ("action", action)]) "user"
        = user ∧
    goIndex (hashSetAll h [("user", user), ("userType", userType), ("action", action)]) "userType"
        = userType ∧
    goIndex (hashSetAll h [("user", user), ("userType", userType), ("action", action)]) "action"
        = action := by
  simp [goIndex, hashSetAll, hashSet]


theorem string_length_eq_zero (s : String) : s.length = 0 ↔ s = "" := by
  constructor
  · intro h
    apply String.ext
    exact List.length_eq_zero.mp h
  · rintro rfl
    rfl

/-! ## `getRedisEntryBySlug` -/

theorem getRedisEntryBySlug_fetched (slug : String) (client : Client) :
    (getRedisEntryBySlug slug client none).1 =
      ({ User := goIndex (hashOf client.store slug) "user",
         UserType := goIndex (hashOf client.store slug) "userType",
         Action := goIndex (hashOf client.store slug) "action" },
       if goIndex (hashOf client.store slug) "user" = "" then
         some (GoError.errorf "Slug not found.") else none) := by
  simp [getRedisEntryBySlug, Client.HGetAll, string_length_eq_zero]

theorem getRedisEntryBySlug_failed (slug : String) (client : Client) (e : GoError) :
    (getRedisEntryBySlug slug client (some e)).1 =
      ({ User := "", UserType := "", Action := "" }, some (GoError.errorf "Slug not found.")) := by
  simp [getRedisEntryBySlug, Client.HGetAll, goIndex, emptyHash]

theorem getRedisEntryBySlug_congr (slug : String) (c1 c2 : Client) (fault : Option GoError)
    (h : c1.store slug = c2.store slug) :
    (getRedisEntryBySlug slug c1 fault).1 = (getRedisEntryBySlug slug c2 fault).1 := by
  cases fault with
  | some e => rw [getRedisEntryBySlug_failed, getRedisEntryBySlug_failed]
  | none =>
    have hh : hashOf c1.store slug = hashOf c2.store slug := by unfold hashOf; rw [h]
    rw [getRedisEntryBySlug_fetched, getRedisEntryBySlug_fetched, hh]

theorem getRedisEntryBySlug_empty_user (slug : String) (client : Client) (fault : Option GoError)
    (h : goIndex (hashOf client.store slug) "user" = "") :
    (getRedisEntryBySlug slug client fault).1.2 = some (GoError.errorf "Slug not found.") := by
  cases fault with
  | some e => rw [getRedisEntryBySlug_failed]
  | none => rw [getRedisEntryBySlug_fetched]; simp [h]

theorem createRedisEntry_other (input : RedisInput) (client : Client) (ulid : String)
    (hsetErr expireErr : Option GoError) (k : String) (h : k ≠ ulid) :
    (createRedisEntry input client ulid hsetErr expireErr).2.store k = client.store k := by
  rw [createRedisEntry_store]
  cases hsetErr with
  | some e => rfl
  | none =>
    cases expireErr with
    | some e => exact storeHSet_other _ _ _ _ h
    | none =>
      show storeExpireLT _ _ _ k = _
      rw [storeExpireLT_other _ _ _ _ h, storeHSet_other _ _ _ _ h]

theorem createRedisEntry_hash (userId userType action ttl : String) (client : Client)
    (ulid : String) (expireErr : Option GoError) :
    hashOf (createRedisEntry
        { User := userId, UserType := userType, Action := action, Ttl := parseTTL ttl }
        client ulid none expireErr).2.store ulid =
      hashSetAll (hashOf client.store ulid)
        [("user", userId), ("userType", userType), ("action", action)] := by
  rw [createRedisEntry_store]
  cases expireErr with
  | some e => exact hashOf_storeHSet _ _ _
  | none =>
    show hashOf (storeExpireLT _ _ _) ulid = _
    rw [seconds_of_parseTTL, hashOf_storeExpireLT _ _ _ (parseTTL_range ttl).1, hashOf_storeHSet]

theorem createRedisEntry_present (userId userType action ttl : String) (client : Client)
    (ulid : String) (expireErr : Option GoError) :
    (createRedisEntry
        { User := userId, UserType := userType, Action := action, Ttl := parseTTL ttl }
        client ulid none expireErr).2.store ulid ≠ none := by
  rw [createRedisEntry_store]
  cases expireErr with
  | some e => exact storeHSet_present _ _ _
  | none =>
    show storeExpireLT _ _ _ ulid ≠ none
    rw [seconds_of_parseTTL]
    exact storeExpireLT_present _ _ _ (parseTTL_range ttl).1 (storeHSet_present _ _ _)

theorem createRedisEntry_lookup (userId userType action ttl : String) (client : Client)
    (ulid : String) (expireErr : Option GoError) (hUser : userId ≠ "") :
    (getRedisEntryBySlug ulid (createRedisEntry
        { User := userId, UserType := userType, Action := action, Ttl := parseTTL ttl }
        client ulid none expireErr).2 none).1 =
      ({ User := userId, UserType := userType, Action := action }, none) := by
  rw [getRedisEntryBySlug_fetched, createRedisEntry_hash]
  obtain ⟨h1, h2, h3⟩ := goIndex_record (hashOf client.store ulid) userId userType action
  rw [h1, h2, h3, if_neg hUser]

theorem sanitizeInputParams_valid (userType userId action ttl : String)
    (hType : userType = "prospect" ∨ userType = "resident")
    (hAction : action = "smsConsent" ∨ action = "appointmentChange") :
    sanitizeInputParams (saveTtlRequest userType userId action ttl) =
      (userType, action, userId, parseTTL ttl, none) := by
  rcases hType with rfl | rfl <;> rcases hAction with rfl | rfl <;> rfl

/-- C1: for a valid user type, a valid action, a non-empty user id and any
raw ttl, validation passes, and when `createRedisEntry` on the validated
values returns no error, `getRedisEntryBySlug` of the returned slug on the
resulting store returns, without error, the record of the three input fields. -/
theorem create_then_lookup (client : Client) (userType userId action ttl ulid : String)
    (hsetErr expireErr : Option GoError)
    (hType : userType = "prospect" ∨ userType = "resident")
    (hAction : action = "smsConsent" ∨ action = "appointmentChange")
    (hUser : userId ≠ "")
    (hOk : (createRedisEntry
        { User := userId, UserType := userType, Action := action, Ttl := parseTTL ttl }
        client ulid hsetErr expireErr).1.2 = none) :
    sanitizeInputParams (saveTtlRequest userType userId action ttl) =
      (userType, action, userId, parseTTL ttl, none) ∧
    (getRedisEntryBySlug
        (createRedisEntry
          { User := userId, UserType := userType, Action := action, Ttl := parseTTL ttl }
          client ulid hsetErr expireErr).1.1
        (createRedisEntry
          { User := userId, UserType := userType, Action := action, Ttl := parseTTL ttl }
          client ulid hsetErr expireErr).2 none).1 =
      ({ User := userId, UserType := userType, Action := action }, none) := by
  refine ⟨sanitizeInputParams_valid _ _ _ _ hType hAction, ?_⟩
  rw [createRedisEntry_slug]
  rw [createRedisEntry_err] at hOk
  cases hsetErr with
  | some e => simp at hOk
  | none => exact createRedisEntry_lookup _ _ _ _ _ _ _ hUser

theorem create_then_lookup_witness :
    ("resident" = "prospect" ∨ "resident" = "resident") ∧
    ("smsConsent" = "smsConsent" ∨ "smsConsent" = "appointmentChange") ∧
    "u123" ≠ "" ∧
    (createRedisEntry
        { User := "u123", UserType := "resident", Action := "smsConsent", Ttl := parseTTL "3600" }
        { store := emptyStore, calls := [] } "01ARZ3NDEKTSV4RRFFQ69G5FAV" none none).1.2 = none ∧
    (getRedisEntryBySlug
        (createRedisEntry
          { User := "u123", UserType := "resident", Action := "smsConsent",
            Ttl := parseTTL "3600" }
          { store := emptyStore, calls := [] } "01ARZ3NDEKTSV4RRFFQ69G5FAV" none none).1.1
        (createRedisEntry
          { User := "u123", UserType := "resident", Action := "smsConsent",
            Ttl := parseTTL "3600" }
          { store := emptyStore, calls := [] } "01ARZ3NDEKTSV4RRFFQ69G5FAV" none none).2 none).1 =
      ({ User := "u123", UserType := "resident", Action := "smsConsent" }, none) :=
  ⟨Or.inr rfl, Or.inl rfl, by decide, rfl,
    (create_then_lookup { store := emptyStore, calls := [] } "resident" "u123" "smsConsent" "3600"
      "01ARZ3NDEKTSV4RRFFQ69G5FAV" none none (Or.inr rfl) (Or.inl rfl) (by decide) rfl).2⟩

/-! ## Absence -/

theorem hashOf_elapse_expired (store : Store) (key : String) (seconds : Nat) (entry : Entry)
    (t : Nat) (hk : store key = some entry) (ht : entry.ttl = some t) (h : t ≤ seconds) :
    elapse seconds store key = none := by
  simp [elapse, hk, ht, h]

/-- C6: when the fetch succeeds, `getRedisEntryBySlug` reports the
"Slug not found." error exactly when the `user` field of the entry is absent
or empty, and otherwise returns, without error, the record of the entry's
`user`, `userType` and `action` fields; a slug without an entry in the store
is reported as not found, and so is a slug whose time to live has run out. -/
theorem lookup_absence (slug : String) (client : Client) (seconds : Nat) :
    ((getRedisEntryBySlug slug client none).1.2 = some (GoError.errorf "Slug not found.") ↔
      (hashOf client.store slug "user" = none ∨ hashOf client.store slug "user" = some "")) ∧
    (¬ (hashOf client.store slug "user" = none ∨ hashOf client.store slug "user" = some "") →
      (getRedisEntryBySlug slug client none).1 =
        ({ User := goIndex (hashOf client.store slug) "user",
           UserType := goIndex (hashOf client.store slug) "userType",
           Action := goIndex (hashOf client.store slug) "action" }, none)) ∧
    (client.store slug = none →
      (getRedisEntryBySlug slug client none).1.2 = some (GoError.errorf "Slug not found.")) ∧
    (∀ (entry : Entry) (t : Nat), client.store slug = some entry → entry.ttl = some t →
      t ≤ seconds →
      (getRedisEntryBySlug slug { client with store := elapse seconds client.store } none).1.2 =
        some (GoError.errorf "Slug not found.")) := by
  have hu : goIndex (hashOf client.store slug) "user" = "" ↔
      (hashOf client.store slug "user" = none ∨ hashOf client.store slug "user" = some "") := by
    unfold goIndex
    cases hashOf client.store slug "user" <;> simp
  refine ⟨?_, ?_, ?_, ?_⟩
  · rw [getRedisEntryBySlug_fetched, ← hu]
    by_cases h : goIndex (hashOf client.store slug) "user" = "" <;> simp [h]
  · intro h
    rw [getRedisEntryBySlug_fetched, if_neg (fun h' => h (hu.mp h'))]
  · intro h
    apply getRedisEntryBySlug_empty_user
    simp [hashOf, h, goIndex, emptyHash]
  · intro entry t hk ht hle
    apply getRedisEntryBySlug_empty_user
    simp [hashOf, hashOf_elapse_expired _ _ _ _ _ hk ht hle, goIndex, emptyHash]

theorem lookup_absence_witness :
    (getRedisEntryBySlug "01ARZ3NDEKTSV4RRFFQ69G5FAV" { store := emptyStore, calls := [] } none).1.2 =
      some (GoError.errorf "Slug not found.") :=
  (lookup_absence "01ARZ3NDEKTSV4RRFFQ69G5FAV" { store := emptyStore, calls := [] } 0).2.2.1 rfl

/-- C7, the behaviour of the code: the record of `u123` is stored under the
slug, the fetch fails with a connection error, and `getRedisEntryBySlug`
returns the "Slug not found." error in place of the connection error. -/
theorem lookup_store_failure_overwritten :
    (getRedisEntryBySlug "01ARZ3NDEKTSV4RRFFQ69G5FAV"
        (createRedisEntry
          { User := "u123", UserType := "resident", Action := "smsConsent", Ttl := 3600 }
          { store := emptyStore, calls := [] } "01ARZ3NDEKTSV4RRFFQ69G5FAV" none none).2
        (some (GoError.redis "dial tcp 127.0.0.1:6379: connect: connection refused"))).1 =
      ({ User := "", UserType := "", Action := "" }, some (GoError.errorf "Slug not found.")) ∧
    (getRedisEntryBySlug "01ARZ3NDEKTSV4RRFFQ69G5FAV"
        (createRedisEntry
          { User := "u123", UserType := "resident", Action := "smsConsent", Ttl := 3600 }
          { store := emptyStore, calls := [] } "01ARZ3NDEKTSV4RRFFQ69G5FAV" none none).2
        (some (GoError.redis "dial tcp 127.0.0.1:6379: connect: connection refused"))).1.2 ≠
      some (GoError.redis "dial tcp 127.0.0.1:6379: connect: connection refused") := by
  rw [getRedisEntryBySlug_failed]
  exact ⟨rfl, by decide⟩

/-! ## The save handlers -/

theorem saveTtlHandler_eq (request : Request) (client : Client) (ulid : String)
    (hsetErr expireErr : Option GoError) :
    saveTtlHandler request client ulid hsetErr expireErr =
      ((if (createRedisEntry
              { User := (sanitizeInputParams request).2.2.1,
                UserType := (sanitizeInputParams request).1,
                Action := (sanitizeInputParams request).2.1,
                Ttl := (sanitizeInputParams request).2.2.2.1 }
              client ulid hsetErr expireErr).1.2 = none
        then ulid else "Error creating slug."),
       (createRedisEntry
          { User := (sanitizeInputParams request).2.2.1,
            UserType := (sanitizeInputParams request).1,
            Action := (sanitizeInputParams request).2.1,
            Ttl := (sanitizeInputParams request).2.2.2.1 }
          client ulid hsetErr expireErr).2) := by
  unfold saveTtlHandler
  simp only [createRedisEntry_slug]

theorem saveHandler_eq (request : Request) (client : Client) (ulid : String)
    (hsetErr expireErr : Option GoError) :
    saveHandler request client ulid hsetErr expireErr =
      saveTtlHandler request client ulid hsetErr expireErr := rfl

theorem sanitizeInputParams_rejected (request : Request)
    (h : (request.PathValue "userType" ≠ "prospect" ∧ request.PathValue "userType" ≠ "resident") ∨
      (request.PathValue "action" ≠ "smsConsent" ∧
        request.PathValue "action" ≠ "appointmentChange")) :
    (sanitizeInputParams request).1 = "" ∧ (sanitizeInputParams request).2.1 = "" ∧
    (sanitizeInputParams request).2.2.1 = "" ∧ (sanitizeInputParams request).2.2.2.1 = 0 := by
  unfold sanitizeInputParams
  by_cases h1 : request.PathValue "userType" ≠ "prospect" ∧
      request.PathValue "userType" ≠ "resident"
  · simp only []
    rw [if_pos h1]
    exact ⟨rfl, rfl, rfl, rfl⟩
  · have h2 : request.PathValue "action" ≠ "smsConsent" ∧
        request.PathValue "action" ≠ "appointmentChange" := by tauto
    simp only []
    rw [if_neg h1, if_pos h2]
    exact ⟨rfl, rfl, rfl, rfl⟩

theorem hashOf_storeExpireLT_cases (store : Store) (key : String) (seconds : Int) :
    hashOf (storeExpireLT store key seconds) key = hashOf store key ∨
    hashOf (storeExpireLT store key seconds) key = emptyHash := by
  unfold hashOf storeExpireLT
  cases store key with
  | none => simp
  | some entry =>
    by_cases hr : ltRefuses entry.ttl seconds = true
    · simp [hr]
    · by_cases hs : seconds ≤ 0 <;> simp [hr, hs]

theorem createRedisEntry_empty_user (input : RedisInput) (client : Client) (ulid : String)
    (expireErr : Option GoError) (hUser : input.User = "") :
    goIndex (hashOf (createRedisEntry input client ulid none expireErr).2.store ulid) "user"
      = "" := by
  have hset : goIndex (hashOf (storeHSet client.store ulid
      [("user", input.User), ("userType", input.UserType), ("action", input.Action)]) ulid)
      "user" = "" := by
    rw [hashOf_storeHSet, (goIndex_record _ _ _ _).1, hUser]
  rw [createRedisEntry_store]
  cases expireErr with
  | some e => exact hset
  | none =>
    show goIndex (hashOf (storeExpireLT _ _ _) ulid) "user" = ""
    rcases hashOf_storeExpireLT_cases (storeHSet client.store ulid
      [("user", input.User), ("userType", input.UserType), ("action", input.Action)]) ulid
      (formatSec (wrapInt64 (wrapInt64 input.Ttl * Second))) with h | h
    · rw [h]; exact hset
    · rw [h]; rfl

theorem saveTtlHandler_rejected (request : Request) (client : Client) (ulid : String)
    (hsetErr expireErr : Option GoError)
    (h : (request.PathValue "userType" ≠ "prospect" ∧ request.PathValue "userType" ≠ "resident") ∨
      (request.PathValue "action" ≠ "smsConsent" ∧
        request.PathValue "action" ≠ "appointmentChange")) :
    (saveTtlHandler request client ulid hsetErr expireErr).2 =
      (createRedisEntry { User := "", UserType := "", Action := "", Ttl := 0 }
        client ulid hsetErr expireErr).2 := by
  obtain ⟨h1, h2, h3, h4⟩ := sanitizeInputParams_rejected request h
  rw [saveTtlHandler_eq, h1, h2, h3, h4]

theorem saveTtlHandler_rejected_calls (request : Request) (client : Client) (ulid : String)
    (expireErr : Option GoError)
    (h : (request.PathValue "userType" ≠ "prospect" ∧ request.PathValue "userType" ≠ "resident") ∨
      (request.PathValue "action" ≠ "smsConsent" ∧
        request.PathValue "action" ≠ "appointmentChange")) :
    (saveTtlHandler request client ulid none expireErr).2.calls =
      client.calls ++
        [Cmd.HSet ulid [("user", ""), ("userType", ""), ("action", "")], Cmd.ExpireLT ulid 0] := by
  rw [saveTtlHandler_rejected _ _ _ _ _ h, createRedisEntry_calls]
  rfl

theorem saveTtlHandler_rejected_body (request : Request) (client : Client) (ulid : String)
    (h : (request.PathValue "userType" ≠ "prospect" ∧ request.PathValue "userType" ≠ "resident") ∨
      (request.PathValue "action" ≠ "smsConsent" ∧
        request.PathValue "action" ≠ "appointmentChange")) :
    (saveTtlHandler request client ulid none none).1 = ulid := by
  obtain ⟨h1, h2, h3, h4⟩ := sanitizeInputParams_rejected request h
  rw [saveTtlHandler_eq, h1, h2, h3, h4, createRedisEntry_err]
  rfl

theorem rejected_lookup (client : Client) (ulid : String) (hsetErr expireErr : Option GoError)
    (slug : String) (fault : Option GoError)
    (hBefore : (getRedisEntryBySlug slug client none).1.2 ≠ none) :
    (getRedisEntryBySlug slug
        (createRedisEntry { User := "", UserType := "", Action := "", Ttl := 0 }
          client ulid hsetErr expireErr).2 fault).1.2 ≠ none := by
  cases fault with
  | some e => rw [getRedisEntryBySlug_failed]; simp
  | none =>
    by_cases hk : slug = ulid
    · subst hk
      cases hsetErr with
      | some e =>
        rw [getRedisEntryBySlug_congr slug _ client none (by rw [createRedisEntry_store])]
        exact hBefore
      | none =>
        rw [getRedisEntryBySlug_empty_user _ _ _ (createRedisEntry_empty_user _ _ _ _ rfl)]
        simp
    · rw [getRedisEntryBySlug_congr slug _ client none (createRedisEntry_other _ _ _ _ _ _ hk)]
      exact hBefore

/-- C9: after a save request whose user type is neither `prospect` nor
`resident`, on either route and whatever the store calls do, every slug whose
lookup reported an error before the request (the slug generated for the
request included) still reports an error: no record is returned for it, so
none that carries the data of the rejected request. -/
theorem rejected_request_never_resolves (request : Request) (client : Client) (ulid : String)
    (hsetErr expireErr : Option GoError) (slug : String) (fault : Option GoError)
    (hType : request.PathValue "userType" ≠ "prospect" ∧
      request.PathValue "userType" ≠ "resident")
    (hBefore : (getRedisEntryBySlug slug client none).1.2 ≠ none) :
    (getRedisEntryBySlug slug
        (saveTtlHandler request client ulid hsetErr expireErr).2 fault).1.2 ≠ none ∧
    (getRedisEntryBySlug slug
        (saveHandler request client ulid hsetErr expireErr).2 fault).1.2 ≠ none := by
  rw [saveHandler_eq, saveTtlHandler_rejected _ _ _ _ _ (Or.inl hType)]
  exact ⟨rejected_lookup _ _ _ _ _ _ hBefore, rejected_lookup _ _ _ _ _ _ hBefore⟩

theorem rejected_request_never_resolves_witness :
    ("bogus" ≠ "prospect" ∧ "bogus" ≠ "resident") ∧
    (getRedisEntryBySlug "01ARZ3NDEKTSV4RRFFQ69G5FAV"
        { store := emptyStore, calls := [] } none).1.2 ≠ none ∧
    (getRedisEntryBySlug "01ARZ3NDEKTSV4RRFFQ69G5FAV"
        (saveTtlHandler (saveTtlRequest "bogus" "u1" "smsConsent" "3600")
          { store := emptyStore, calls := [] } "01ARZ3NDEKTSV4RRFFQ69G5FAV" none none).2
        none).1.2 ≠ none ∧
    (getRedisEntryBySlug "01ARZ3NDEKTSV4RRFFQ69G5FAV"
        (saveHandler (saveTtlRequest "bogus" "u1" "smsConsent" "3600")
          { store := emptyStore, calls := [] } "01ARZ3NDEKTSV4RRFFQ69G5FAV" none none).2
        none).1.2 ≠ none :=
  ⟨by decide, by decide,
    rejected_request_never_resolves (saveTtlRequest "bogus" "u1" "smsConsent" "3600")
      { store := emptyStore, calls := [] } "01ARZ3NDEKTSV4RRFFQ69G5FAV" none none
      "01ARZ3NDEKTSV4RRFFQ69G5FAV" none (by decide) (by decide)⟩

/-! ## Frame -/

theorem resolved_is_present (slug : String) (client : Client)
    (h : (getRedisEntryBySlug slug client none).1.2 = none) : client.store slug ≠ none := by
  intro hk
  rw [getRedisEntryBySlug_empty_user slug client none
    (by simp [hashOf, hk, goIndex, emptyHash])] at h
  simp at h

/-- C8: when the generated slug has no entry in the store and
`createRedisEntry` returns no error, the lookup result of every other slug is
unchanged, and every slug that resolved before resolves to the same record
afterwards.  Two consecutive creates of the same fields (non-empty user id,
any raw ttl), each with a generated slug without an entry in the store and
each returning no error, return two distinct slugs, and after both creates
each of the two slugs looks up, without error, as the record of those
fields. -/
theorem create_preserves_other_records (client : Client) (input : RedisInput)
    (ulid other : String) (hsetErr expireErr fault : Option GoError)
    (userId userType action ttl ulid2 : String) (hsetErr2 expireErr2 : Option GoError) :
    (client.store ulid = none →
      (createRedisEntry input client ulid hsetErr expireErr).1.2 = none →
      (other ≠ (createRedisEntry input client ulid hsetErr expireErr).1.1 →
        (getRedisEntryBySlug other
            (createRedisEntry input client ulid hsetErr expireErr).2 fault).1 =
          (getRedisEntryBySlug other client fault).1) ∧
      ((getRedisEntryBySlug other client none).1.2 = none →
        (getRedisEntryBySlug other
            (createRedisEntry input client ulid hsetErr expireErr).2 none).1 =
          (getRedisEntryBySlug other client none).1)) ∧
    (userId ≠ "" →
      client.store ulid = none →
      (createRedisEntry
          { User := userId, UserType := userType, Action := action, Ttl := parseTTL ttl }
          client ulid hsetErr expireErr).1.2 = none →
      (createRedisEntry
          { User := userId, UserType := userType, Action := action, Ttl := parseTTL ttl }
          client ulid hsetErr expireErr).2.store ulid2 = none →
      (createRedisEntry
          { User := userId, UserType := userType, Action := action, Ttl := parseTTL ttl }
          (createRedisEntry
            { User := userId, UserType := userType, Action := action, Ttl := parseTTL ttl }
            client ulid hsetErr expireErr).2 ulid2 hsetErr2 expireErr2).1.2 = none →
      (createRedisEntry
          { User := userId, UserType := userType, Action := action, Ttl := parseTTL ttl }
          client ulid hsetErr expireErr).1.1 ≠
        (createRedisEntry
          { User := userId, UserType := userType, Action := action, Ttl := parseTTL ttl }
          (createRedisEntry
            { User := userId, UserType := userType, Action := action, Ttl := parseTTL ttl }
            client ulid hsetErr expireErr).2 ulid2 hsetErr2 expireErr2).1.1 ∧
      (getRedisEntryBySlug ulid
          (createRedisEntry
            { User := userId, UserType := userType, Action := action, Ttl := parseTTL ttl }
            (createRedisEntry
              { User := userId, UserType := userType, Action := action, Ttl := parseTTL ttl }
              client ulid hsetErr expireErr).2 ulid2 hsetErr2 expireErr2).2 none).1 =
        ({ User := userId, UserType := userType, Action := action }, none) ∧
      (getRedisEntryBySlug ulid2
          (createRedisEntry
            { User := userId, UserType := userType, Action := action, Ttl := parseTTL ttl }
            (createRedisEntry
              { User := userId, UserType := userType, Action := action, Ttl := parseTTL ttl }
              client ulid hsetErr expireErr).2 ulid2 hsetErr2 expireErr2).2 none).1 =
        ({ User := userId, UserType := userType, Action := action }, none)) := by
  constructor
  · intro hFresh _
    rw [createRedisEntry_slug]
    constructor
    · intro hne
      exact getRedisEntryBySlug_congr _ _ _ _ (createRedisEntry_other _ _ _ _ _ _ hne)
    · intro hRes
      have hne : other ≠ ulid := by
        rintro rfl
        exact resolved_is_present _ _ hRes hFresh
      exact getRedisEntryBySlug_congr _ _ _ _ (createRedisEntry_other _ _ _ _ _ _ hne)
  · intro hUser _ hOk1 hFresh2 hOk2
    rw [createRedisEntry_err] at hOk1 hOk2
    rw [createRedisEntry_slug, createRedisEntry_slug]
    cases hsetErr with
    | some e => simp at hOk1
    | none =>
      cases hsetErr2 with
      | some e => simp at hOk2
      | none =>
        have hne : ulid ≠ ulid2 := by
          rintro rfl
          exact createRedisEntry_present _ _ _ _ _ _ _ hFresh2
        refine ⟨hne, ?_, createRedisEntry_lookup _ _ _ _ _ _ _ hUser⟩
        rw [getRedisEntryBySlug_congr ulid _ _ none (createRedisEntry_other _ _ _ _ _ _ hne)]
        exact createRedisEntry_lookup _ _ _ _ _ _ _ hUser

theorem create_preserves_other_records_witness :
    (getRedisEntryBySlug "01BX5ZZKBKACTAV9WEVGEMMVRZ"
        (createRedisEntry
          { User := "u123", UserType := "resident", Action := "smsConsent", Ttl := 3600 }
          { store := emptyStore, calls := [] } "01ARZ3NDEKTSV4RRFFQ69G5FAV" none none).2 none).1 =
      (getRedisEntryBySlug "01BX5ZZKBKACTAV9WEVGEMMVRZ"
        { store := emptyStore, calls := [] } none).1 ∧
    "01ARZ3NDEKTSV4RRFFQ69G5FAV" ≠ "01BX5ZZKBKACTAV9WEVGEMMVRZ" ∧
    (getRedisEntryBySlug "01ARZ3NDEKTSV4RRFFQ69G5FAV"
        (createRedisEntry
          { User := "u123", UserType := "resident", Action := "smsConsent",
            Ttl := parseTTL "3600" }
          (createRedisEntry
            { User := "u123", UserType := "resident", Action := "smsConsent",
              Ttl := parseTTL "3600" }
            { store := emptyStore, calls := [] } "01ARZ3NDEKTSV4RRFFQ69G5FAV" none none).2
          "01BX5ZZKBKACTAV9WEVGEMMVRZ" none none).2 none).1 =
      ({ User := "u123", UserType := "resident", Action := "smsConsent" }, none) ∧
    (getRedisEntryBySlug "01BX5ZZKBKACTAV9WEVGEMMVRZ"
        (createRedisEntry
          { User := "u123", UserType := "resident", Action := "smsConsent",
            Ttl := parseTTL "3600" }
          (createRedisEntry
            { User := "u123", UserType := "resident", Action := "smsConsent",
              Ttl := parseTTL "3600" }
            { store := emptyStore, calls := [] } "01ARZ3NDEKTSV4RRFFQ69G5FAV" none none).2
          "01BX5ZZKBKACTAV9WEVGEMMVRZ" none none).2 none).1 =
      ({ User := "u123", UserType := "resident", Action := "smsConsent" }, none) :=
  ⟨((create_preserves_other_records { store := emptyStore, calls := [] }
      { User := "u123", UserType := "resident", Action := "smsConsent", Ttl := 3600 }
      "01ARZ3NDEKTSV4RRFFQ69G5FAV" "01BX5ZZKBKACTAV9WEVGEMMVRZ" none none none
      "u123" "resident" "smsConsent" "3600" "01BX5ZZKBKACTAV9WEVGEMMVRZ" none none).1
      rfl rfl).1 (by decide),
   (create_preserves_other_records { store := emptyStore, calls := [] }
      { User := "u123", UserType := "resident", Action := "smsConsent", Ttl := 3600 }
      "01ARZ3NDEKTSV4RRFFQ69G5FAV" "01BX5ZZKBKACTAV9WEVGEMMVRZ" none none none
      "u123" "resident" "smsConsent" "3600" "01BX5ZZKBKACTAV9WEVGEMMVRZ" none none).2
    (by decide) rfl rfl (by simp [createRedisEntry_store, storeExpireLT, storeHSet, emptyStore])
    rfl⟩

/-! ## The empty user id -/

/-- C10: for a valid user type, a valid action, the empty user id and any raw
ttl, validation passes, `createRedisEntry` returns the generated slug and no
error when both store calls succeed (so the handler answers with the slug),
the entry is in the store, and yet `getRedisEntryBySlug` of that slug right
afterwards reports the "Slug not found." error. -/
theorem empty_user_conflation (client : Client) (userType action ttl ulid : String)
    (hType : userType = "prospect" ∨ userType = "resident")
    (hAction : action = "smsConsent" ∨ action = "appointmentChange") :
    sanitizeInputParams (saveTtlRequest userType "" action ttl) =
      (userType, action, "", parseTTL ttl, none) ∧
    (createRedisEntry
        { User := "", UserType := userType, Action := action, Ttl := parseTTL ttl }
        client ulid none none).1 = (ulid, none) ∧
    (saveTtlHandler (saveTtlRequest userType "" action ttl) client ulid none none).1 = ulid ∧
    (createRedisEntry
        { User := "", UserType := userType, Action := action, Ttl := parseTTL ttl }
        client ulid none none).2.store ulid ≠ none ∧
    (getRedisEntryBySlug ulid
        (createRedisEntry
          { User := "", UserType := userType, Action := action, Ttl := parseTTL ttl }
          client ulid none none).2 none).1.2 = some (GoError.errorf "Slug not found.") := by
  have hv := sanitizeInputParams_valid userType "" action ttl hType hAction
  have hc : (createRedisEntry
      { User := "", UserType := userType, Action := action, Ttl := parseTTL ttl }
      client ulid none none).1 = (ulid, none) :=
    Prod.ext (createRedisEntry_slug _ _ _ _ _) (createRedisEntry_err _ _ _ _ _)
  refine ⟨hv, hc, ?_, createRedisEntry_present _ _ _ _ _ _ _, ?_⟩
  · rw [saveTtlHandler_eq, hv]
    show (if (createRedisEntry
      { User := "", UserType := userType, Action := action, Ttl := parseTTL ttl }
      client ulid none none).1.2 = none then ulid else "Error creating slug.") = ulid
    rw [hc]
    rfl
  · exact getRedisEntryBySlug_empty_user _ _ _ (createRedisEntry_empty_user _ _ _ _ rfl)

theorem empty_user_conflation_witness :
    ("prospect" = "prospect" ∨ "prospect" = "resident") ∧
    ("appointmentChange" = "smsConsent" ∨ "appointmentChange" = "appointmentChange") ∧
    (saveTtlHandler (saveTtlRequest "prospect" "" "appointmentChange" "60")
      { store := emptyStore, calls := [] } "01ARZ3NDEKTSV4RRFFQ69G5FAV" none none).1 =
      "01ARZ3NDEKTSV4RRFFQ69G5FAV" ∧
    (getRedisEntryBySlug "01ARZ3NDEKTSV4RRFFQ69G5FAV"
        (createRedisEntry
          { User := "", UserType := "prospect", Action := "appointmentChange",
            Ttl := parseTTL "60" }
          { store := emptyStore, calls := [] } "01ARZ3NDEKTSV4RRFFQ69G5FAV" none none).2
        none).1.2 = some (GoError.errorf "Slug not found.") :=
  ⟨Or.inl rfl, Or.inr rfl,
    (empty_user_conflation { store := emptyStore, calls := [] } "prospect" "appointmentChange"
      "60" "01ARZ3NDEKTSV4RRFFQ69G5FAV" (Or.inl rfl) (Or.inr rfl)).2.2.1,
    (empty_user_conflation { store := emptyStore, calls := [] } "prospect" "appointmentChange"
      "60" "01ARZ3NDEKTSV4RRFFQ69G5FAV" (Or.inl rfl) (Or.inr rfl)).2.2.2.2⟩

/-! ## A rejected request on the save routes -/

/-- C4, the behaviour of the code: the request `/save/bogus/u1/smsConsent`
fails validation with the invalid-user-type error, and the handler (on either
route) still issues a hash-set of three empty fields and an expire of 0
seconds under the generated slug; when the expire call then fails, the entry
stays in the store. -/
theorem rejected_request_reaches_store :
    (sanitizeInputParams (saveRequest "bogus" "u1" "smsConsent")).2.2.2.2 =
      some (GoError.errorf "Invalid user type.") ∧
    (saveHandler (saveRequest "bogus" "u1" "smsConsent") { store := emptyStore, calls := [] }
        "01ARZ3NDEKTSV4RRFFQ69G5FAV" none none).2.calls =
      [Cmd.HSet "01ARZ3NDEKTSV4RRFFQ69G5FAV" [("user", ""), ("userType", ""), ("action", "")],
       Cmd.ExpireLT "01ARZ3NDEKTSV4RRFFQ69G5FAV" 0] ∧
    (saveTtlHandler (saveTtlRequest "bogus" "u1" "smsConsent" "3600")
        { store := emptyStore, calls := [] } "01ARZ3NDEKTSV4RRFFQ69G5FAV" none none).2.calls =
      [Cmd.HSet "01ARZ3NDEKTSV4RRFFQ69G5FAV" [("user", ""), ("userType", ""), ("action", "")],
       Cmd.ExpireLT "01ARZ3NDEKTSV4RRFFQ69G5FAV" 0] ∧
    ((saveHandler (saveRequest "bogus" "u1" "smsConsent") { store := emptyStore, calls := [] }
        "01ARZ3NDEKTSV4RRFFQ69G5FAV" none (some (GoError.redis "i/o timeout"))).2.store
      "01ARZ3NDEKTSV4RRFFQ69G5FAV").isSome = true := by
  decide

/-- C5, the behaviour of the code: the request `/save/bogus/u1/smsConsent`
fails validation with the invalid-user-type error, and with both store calls
succeeding the handler (on either route) answers with the generated slug, not
with "Error creating slug.". -/
theorem rejected_request_answers_slug :
    (sanitizeInputParams (saveRequest "bogus" "u1" "smsConsent")).2.2.2.2 =
      some (GoError.errorf "Invalid user type.") ∧
    (saveHandler (saveRequest "bogus" "u1" "smsConsent") { store := emptyStore, calls := [] }
        "01ARZ3NDEKTSV4RRFFQ69G5FAV" none none).1 = "01ARZ3NDEKTSV4RRFFQ69G5FAV" ∧
    (saveTtlHandler (saveTtlRequest "bogus" "u1" "smsConsent" "3600")
        { store := emptyStore, calls := [] } "01ARZ3NDEKTSV4RRFFQ69G5FAV" none none).1 =
      "01ARZ3NDEKTSV4RRFFQ69G5FAV" := by
  decide

end Identity
